import Mathlib

/-!
Verification development for the Milvus vector-database access layer
(memory_manager/vector_db/milvus.py, class MilvusDatabase).

The client is embedded as explicit state passing: a `ClientState` holds the
connection flag, the local collection cache (a list of cached collection
names, mirroring the dict self.collections keyed by name), and the remote
state. The remote vector engine is modelled as an association list from
collection names to `RemoteCollection`; its primitive operations
(has_collection, load, insert, flush, query, search, delete, release, drop,
create, create_index, list_collections) are given faithful semantics over
that state, with an `Env` supplying the remote-side behaviour the source
treats as opaque (fault injection for each primitive, the wall clock used to
stamp create_time, filter-expression evaluation, and the hit list a
successful vector search returns).

Each Python method is translated to a Lean function. A method body wrapped in
try/except becomes an inner `...Try` function returning `Run` (whose result
is an `Except`, mirroring a possible raise) plus an outer public function
returning `Done` (the absorbed form: the except-block swallows the error and
returns the safe default). Methods whose exceptions propagate (`connect`,
`_ensure_connection`, `_get_collection`) are `Run`-valued only. Every remote
interaction is recorded in an `Action` trace so that call-ordering
properties can be stated.
-/

namespace Mnemosyne

/-- Field data types (the subset of pymilvus DataType the source mentions). -/
inductive DType where
  | INT64
  | VARCHAR
  | FLOAT_VECTOR
  | BOOL
  | FLOAT
  deriving DecidableEq, Repr

/-- Values stored in a record (row). -/
inductive Value where
  | int (n : Int)
  | str (s : String)
  | vec (v : List Int)
  | boolean (b : Bool)
  deriving DecidableEq, Repr

/-- A record is a mapping from field name to value (a Python dict, kept as an
ordered association list; dict insertion appends a new key at the end). -/
abbrev Record := List (String × Value)

/-- Index parameter values: the source passes index_params dicts through
verbatim; the default is the nested dict with index_type IVF_FLAT,
metric_type L2 and params containing nlist 256. -/
inductive IdxVal where
  | s (v : String)
  | n (v : Nat)
  | d (v : List (String × Nat))
  deriving DecidableEq, Repr

abbrev IndexParams := List (String × IdxVal)

/-- The default index parameters applied when the caller supplied none
(milvus.py lines 186-191). -/
def defaultIndexParams : IndexParams :=
  [("index_type", IdxVal.s "IVF_FLAT"),
   ("metric_type", IdxVal.s "L2"),
   ("params", IdxVal.d [("nlist", 256)])]

/-- One entry of the abstract schema dict handed to create_collection /
check_collection_schema_consistency: name and dtype are mandatory keys,
the rest are read with .get and so optional. -/
structure FieldDef where
  name : String
  dtype : DType
  is_primary : Bool := false
  auto_id : Bool := false
  is_nullable : Bool := false
  max_length : Option Nat := none
  dim : Option Nat := none
  index_params : IndexParams := []
  deriving DecidableEq, Repr

/-- The schema dict: a fields list plus an optional description. -/
structure Schema where
  fields : List FieldDef
  description : String := ""
  deriving DecidableEq, Repr

/-- A field of a live remote collection schema, as introspection reports it:
max_length is getattr(field, "max_length", None) and dim is
field.params.get("dim"). -/
structure RemoteField where
  name : String
  dtype : DType
  max_length : Option Nat := none
  dim : Option Nat := none
  deriving DecidableEq, Repr

/-- A collection as held by the remote engine: its schema fields, the
indexes that exist on it (field name, index parameters), whether it is
loaded into query-serving memory, and its rows. -/
structure RemoteCollection where
  fields : List RemoteField
  indexes : List (String × IndexParams) := []
  loaded : Bool := false
  rows : List Record := []
  deriving DecidableEq, Repr

/-- The remote engine state: collections keyed by name. -/
abbrev RemoteState := List (String × RemoteCollection)

/-- Look a collection up by name. -/
def lookupCol : RemoteState → String → Option RemoteCollection
  | [], _ => none
  | p :: rest, c => if p.1 = c then some p.2 else lookupCol rest c

/-- Membership of a name in a name list (used for the cache dict and for
field-name sets). -/
def listHas : List String → String → Bool
  | [], _ => false
  | x :: rest, c => if x = c then true else listHas rest c

/-- Remove a name from a name list (del self.collections[name]). -/
def listRemove : List String → String → List String
  | [], _ => []
  | x :: rest, c => if x = c then listRemove rest c else x :: listRemove rest c

/-- The client state: the connection flag for the single alias, the local
cache of collection handles (handles carry no data of their own beyond the
name, so the cache is the list of cached names in insertion order), and the
remote state it talks to. -/
structure ClientState where
  connected : Bool
  cache : List String
  remote : RemoteState
  deriving DecidableEq, Repr

/-- Remote primitives that can fail; an `Env` lists the calls that will
raise when issued. -/
inductive Fault where
  | connect
  | listCols
  | load (c : String)
  | create (c : String)
  | createIndex (c : String)
  | flush (c : String)
  | insert (c : String)
  | query (c : String)
  | search (c : String)
  | delete (c : String)
  | release (c : String)
  | drop (c : String)
  deriving DecidableEq, Repr

/-- A raw hit as the remote search returns it, before the source validates
it: the three has-flags model hasattr for id, distance and entity, and
entityOk models whether converting the entity to a dict succeeds. -/
structure RawHit where
  hasId : Bool
  hasDistance : Bool
  hasEntity : Bool
  entityOk : Bool
  id : Int
  distance : Int
  entity : Record
  deriving DecidableEq, Repr

/-- A normalized search hit as returned to the caller. -/
structure SearchHit where
  id : Int
  distance : Int
  entity : Record
  deriving DecidableEq, Repr

/-- The environment: remote-side behaviour the source treats as opaque. -/
structure Env where
  faults : List Fault
  now : Int
  matchExpr : String → Record → Bool
  searchHits : String → List RawHit

/-- Remote interactions, recorded in traces. ensureConn marks the local
has_connection check at the top of _ensure_connection; connectCall marks
connections.connect. All other constructors are calls issued to the remote
engine. -/
inductive Action where
  | ensureConn
  | connectCall
  | listCollections
  | remoteHas (c : String)
  | remoteIndexes (c : String)
  | remoteLoad (c : String)
  | remoteLoadState (c : String)
  | remoteCreate (c : String)
  | remoteCreateIndex (c : String) (f : String) (p : IndexParams)
  | remoteInsert (c : String) (r : Record)
  | remoteFlush (c : String)
  | remoteQuery (c : String) (expr : String) (fields : List String)
  | remoteSearch (c : String) (annsField : String) (k : Nat)
  | remoteDelete (c : String) (expr : String)
  | remoteRelease (c : String)
  | remoteDrop (c : String)
  deriving DecidableEq, Repr

/-- Is the action a call to the remote data plane (everything except the
local connection check and the connect call that ensure_connection itself
performs to heal the link)? -/
def Action.isRemote : Action → Bool
  | .ensureConn => false
  | .connectCall => false
  | _ => true

/-- Outcome of a method that can raise to its caller. -/
structure Run (α : Type) where
  result : Except String α
  state : ClientState
  trace : List Action

/-- Outcome of a public method whose except-block absorbs every failure. -/
structure Done (α : Type) where
  result : α
  state : ClientState
  trace : List Action

/-- Sequencing inside one try-block: run the continuation only when the
first step succeeded (an exception in the first step skips the rest of the
block), threading the state and accumulating the traces. -/
def andThen {α : Type} (a : Run Unit) (k : ClientState → Run α) : Run α :=
  match a.result with
  | .error e => { result := .error e, state := a.state, trace := a.trace }
  | .ok () =>
    let r := k a.state
    { result := r.result, state := r.state, trace := a.trace ++ r.trace }

/-! ### Remote primitives -/

/-- utility.has_collection. -/
def hasCollection (r : RemoteState) (c : String) : Bool :=
  (lookupCol r c).isSome

/-- utility.load_state: the remote reports Loaded only for an existing,
loaded collection. -/
def loadState (r : RemoteState) (c : String) : String :=
  match lookupCol r c with
  | some col => if col.loaded then "Loaded" else "NotLoad"
  | none => "NotLoad"

/-- Replace the named collection in place, or append it when absent (Python
dict assignment keeps the position of an existing key and appends a new
one). -/
def setCollection : RemoteState → String → RemoteCollection → RemoteState
  | [], c, col => [(c, col)]
  | p :: rest, c, col =>
    if p.1 = c then (c, col) :: rest else p :: setCollection rest c col

/-- Remove the named collection. -/
def removeCollection : RemoteState → String → RemoteState
  | [], _ => []
  | p :: rest, c =>
    if p.1 = c then removeCollection rest c else p :: removeCollection rest c

/-- utility.list_collections, which catches its own failures and degrades
to the empty list (milvus.py lines 327-333). -/
def listCollectionNames (env : Env) (r : RemoteState) : List String :=
  if Fault.listCols ∈ env.faults then [] else r.map (·.1)

/-- collection.load: fails on an injected fault or a collection that no
longer exists; otherwise marks the collection loaded. -/
def remoteLoadOp (env : Env) (r : RemoteState) (c : String) :
    Except String RemoteState :=
  if Fault.load c ∈ env.faults then .error "load failed"
  else
    match lookupCol r c with
    | none => .error "collection missing"
    | some col => .ok (setCollection r c { col with loaded := true })

/-- collection.release: marks the collection not loaded. -/
def remoteReleaseOp (env : Env) (r : RemoteState) (c : String) :
    Except String RemoteState :=
  if Fault.release c ∈ env.faults then .error "release failed"
  else
    match lookupCol r c with
    | none => .error "collection missing"
    | some col => .ok (setCollection r c { col with loaded := false })

/-- collection.insert of a single row. -/
def remoteInsertOp (env : Env) (r : RemoteState) (c : String) (row : Record) :
    Except String RemoteState :=
  if Fault.insert c ∈ env.faults then .error "insert failed"
  else
    match lookupCol r c with
    | none => .error "collection missing"
    | some col => .ok (setCollection r c { col with rows := col.rows ++ [row] })

/-- collection.flush: durability barrier, no modelled state change. -/
def remoteFlushOp (env : Env) (c : String) : Except String Unit :=
  if Fault.flush c ∈ env.faults then .error "flush failed" else .ok ()

/-- collection.query: rows of the collection matching the opaque filter
expression (field projection and ordering are remote-side details left
unmodelled). -/
def remoteQueryOp (env : Env) (r : RemoteState) (c : String) (expr : String) :
    Except String (List Record) :=
  if Fault.query c ∈ env.faults then .error "query failed"
  else
    match lookupCol r c with
    | none => .error "collection missing"
    | some col => .ok (col.rows.filter (env.matchExpr expr))

/-- Names of the FLOAT_VECTOR fields of a collection. -/
def vectorFieldNames (r : RemoteState) (c : String) : List String :=
  match lookupCol r c with
  | none => []
  | some col => (col.fields.filter (fun f => f.dtype == DType.FLOAT_VECTOR)).map (·.name)

/-- collection.search: fails unless annsField names a FLOAT_VECTOR field of
the collection; on success the remote returns the environment's hit list. -/
def remoteSearchOp (env : Env) (r : RemoteState) (c : String)
    (annsField : String) : Except String (List RawHit) :=
  if Fault.search c ∈ env.faults then .error "search failed"
  else
    match lookupCol r c with
    | none => .error "collection missing"
    | some _ =>
      if listHas (vectorFieldNames r c) annsField then .ok (env.searchHits c)
      else .error "anns field not found"

/-- collection.delete: removes the rows matching the expression. -/
def remoteDeleteOp (env : Env) (r : RemoteState) (c : String) (expr : String) :
    Except String RemoteState :=
  if Fault.delete c ∈ env.faults then .error "delete failed"
  else
    match lookupCol r c with
    | none => .error "collection missing"
    | some col =>
      .ok (setCollection r c
        { col with rows := col.rows.filter (fun row => ¬ env.matchExpr expr row) })

/-- utility.drop_collection. -/
def remoteDropOp (env : Env) (r : RemoteState) (c : String) :
    Except String RemoteState :=
  if Fault.drop c ∈ env.faults then .error "drop failed"
  else .ok (removeCollection r c)

/-! ### Methods of MilvusDatabase -/

/-- One iteration of the cache-refresh loop inside connect (milvus.py lines
69-95): check existence, skip unindexed collections, load the rest, cache
them; a failure loading one collection is caught and the loop continues.
Returns the updated remote state, the names to cache, and the trace. -/
def connectStep (env : Env) (r : RemoteState) (c : String) :
    RemoteState × List String × List Action :=
  match lookupCol r c with
  | none => (r, [], [.remoteHas c])
  | some col =>
    if col.indexes = [] then
      (r, [], [.remoteHas c, .remoteIndexes c])
    else if Fault.load c ∈ env.faults then
      (r, [], [.remoteHas c, .remoteIndexes c, .remoteLoad c])
    else
      (setCollection r c { col with loaded := true }, [c],
        [.remoteHas c, .remoteIndexes c, .remoteLoad c])

/-- The cache-refresh loop of connect over the listed collection names. -/
def connectRefresh (env : Env) : List String → RemoteState →
    RemoteState × List String × List Action
  | [], r => (r, [], [])
  | c :: rest, r =>
    let s1 := connectStep env r c
    let s2 := connectRefresh env rest s1.1
    (s2.1, s1.2.1 ++ s2.2.1, s1.2.2 ++ s2.2.2)

/-- connect (milvus.py lines 56-99): establish the connection, enumerate the
remote collections, clear the cache and refresh it collection by collection;
a connection-establishment failure is logged and re-raised. -/
def connect (env : Env) (s : ClientState) : Run Unit :=
  if Fault.connect ∈ env.faults then
    { result := .error "connect failed", state := s, trace := [.connectCall] }
  else
    let names := listCollectionNames env s.remote
    let rf := connectRefresh env names s.remote
    { result := .ok (),
      state := { connected := true, cache := rf.2.1, remote := rf.1 },
      trace := .connectCall :: .listCollections :: rf.2.2 }

/-- _ensure_connection (milvus.py lines 50-54): no-op when connected,
otherwise re-invoke connect (whose failure propagates). -/
def ensureConnection (env : Env) (s : ClientState) : Run Unit :=
  if s.connected then
    { result := .ok (), state := s, trace := [.ensureConn] }
  else
    let r := connect env s
    { r with trace := .ensureConn :: r.trace }

/-- The load-state tail of _get_collection (milvus.py lines 110-117):
re-query the remote load state and load when it is not Loaded. -/
def getCollectionLoad (env : Env) (s1 : ClientState) (c : String)
    (tr1 : List Action) : Run Unit :=
  if loadState s1.remote c ≠ "Loaded" then
    match remoteLoadOp env s1.remote c with
    | .ok r' =>
      { result := .ok (), state := { s1 with remote := r' },
        trace := tr1 ++ [.remoteLoadState c, .remoteLoad c] }
    | .error e =>
      { result := .error e, state := s1,
        trace := tr1 ++ [.remoteLoadState c, .remoteLoad c] }
  else
    { result := .ok (), state := s1, trace := tr1 ++ [.remoteLoadState c] }

/-- _get_collection (milvus.py lines 101-117): return the cached handle, or
check remote existence (raising ValueError when absent) and cache a fresh
handle; then in either case re-check the remote load state. -/
def getCollection (env : Env) (s : ClientState) (c : String) : Run Unit :=
  if listHas s.cache c then
    getCollectionLoad env s c []
  else if hasCollection s.remote c then
    getCollectionLoad env { s with cache := s.cache ++ [c] } c [.remoteHas c]
  else
    { result := .error "collection does not exist", state := s,
      trace := [.remoteHas c] }

/-- Build the remote FieldSchema list from the abstract field definitions
(milvus.py lines 132-166): VARCHAR reads the mandatory max_length key and
FLOAT_VECTOR the mandatory dim key, a missing key raising KeyError. -/
def buildFields : List FieldDef → Except String (List RemoteField)
  | [] => .ok []
  | f :: rest =>
    let one : Except String RemoteField :=
      if f.dtype == DType.VARCHAR then
        match f.max_length with
        | none => .error "KeyError max_length"
        | some m => .ok { name := f.name, dtype := f.dtype, max_length := some m }
      else if f.dtype == DType.FLOAT_VECTOR then
        match f.dim with
        | none => .error "KeyError dim"
        | some d => .ok { name := f.name, dtype := f.dtype, dim := some d }
      else
        .ok { name := f.name, dtype := f.dtype }
    match one with
    | .error e => .error e
    | .ok a =>
      match buildFields rest with
      | .error e => .error e
      | .ok l => .ok (a :: l)

/-- The index parameters actually used for a vector field: the caller's
verbatim when non-empty, the default otherwise (milvus.py lines 184-191,
where index_params is read with .get(.., empty dict) and a falsy value
selects the default). -/
def effIndexParams (f : FieldDef) : IndexParams :=
  if f.index_params = [] then defaultIndexParams else f.index_params

/-- Append an index on the named collection. -/
def addIndex (r : RemoteState) (c : String) (fname : String)
    (p : IndexParams) : RemoteState :=
  match lookupCol r c with
  | none => r
  | some col => setCollection r c { col with indexes := col.indexes ++ [(fname, p)] }

/-- The index-provisioning loop of create_collection (milvus.py lines
182-202): for every FLOAT_VECTOR field, create an index with the effective
parameters; a failure raises out of the loop (to the outer except). -/
def createIndexLoop (env : Env) (c : String) :
    List FieldDef → RemoteState → Except String Unit × RemoteState × List Action
  | [], r => (.ok (), r, [])
  | f :: rest, r =>
    if f.dtype == DType.FLOAT_VECTOR then
      let p := effIndexParams f
      if Fault.createIndex c ∈ env.faults then
        (.error "index creation failed", r, [.remoteCreateIndex c f.name p])
      else
        let r1 := addIndex r c f.name p
        let k := createIndexLoop env c rest r1
        (k.1, k.2.1, .remoteCreateIndex c f.name p :: k.2.2)
    else
      createIndexLoop env c rest r

/-- The flush tail of create_collection (milvus.py lines 204-206), entered
with the outcome of the index loop: an index-loop failure raises before the
flush; otherwise flush (whose own failure also raises, but after the state
was already built). -/
def createCollectionFinish (env : Env) (s2 : ClientState) (c : String)
    (k1 : Except String Unit) (tr : List Action) : Run Unit :=
  match k1 with
  | .error e => { result := .error e, state := s2, trace := tr }
  | .ok () =>
    match remoteFlushOp env c with
    | .error e =>
      { result := .error e, state := s2, trace := tr ++ [.remoteFlush c] }
    | .ok () =>
      { result := .ok (), state := s2, trace := tr ++ [.remoteFlush c] }

/-- The try-body of create_collection (milvus.py lines 125-206): no-op when
the collection already exists; otherwise build the fields (KeyError on a
missing mandatory key), create the collection remotely (also caching its
handle), provision an index for every vector field, and flush. -/
def createCollectionTry (env : Env) (s : ClientState) (c : String)
    (schema : Schema) : Run Unit :=
  if hasCollection s.remote c then
    { result := .ok (), state := s, trace := [.remoteHas c] }
  else
    match buildFields schema.fields with
    | .error e => { result := .error e, state := s, trace := [.remoteHas c] }
    | .ok rfields =>
      if Fault.create c ∈ env.faults then
        { result := .error "create failed", state := s,
          trace := [.remoteHas c, .remoteCreate c] }
      else
        let s1 : ClientState :=
          { s with remote := setCollection s.remote c { fields := rfields },
                   cache := if listHas s.cache c then s.cache else s.cache ++ [c] }
        let k := createIndexLoop env c schema.fields s1.remote
        createCollectionFinish env { s1 with remote := k.2.1 } c k.1
          ([Action.remoteHas c, Action.remoteCreate c] ++ k.2.2)

/-- create_collection (milvus.py lines 119-209): the outer except logs the
failure and returns normally, absorbing it. -/
def createCollection (env : Env) (s : ClientState) (c : String)
    (schema : Schema) : Done Unit :=
  let r := createCollectionTry env s c schema
  { result := (), state := r.state, trace := r.trace }

/-- Stamp a record lacking the create_time key with the current Unix time
(milvus.py lines 217-220; dict assignment appends the new key). -/
def stampRecord (now : Int) (r : Record) : Record :=
  if r.any (fun kv => kv.1 == "create_time") then r
  else r ++ [("create_time", Value.int now)]

/-- The insert steps after connection and handle resolution: stamp every
record, then send only data[0] to the remote engine (an IndexError on an
empty list) and flush. -/
def insertBody (env : Env) (s : ClientState) (c : String)
    (data : List Record) : Run Unit :=
  match data.map (stampRecord env.now) with
  | [] => { result := .error "IndexError", state := s, trace := [] }
  | first :: _ =>
    match remoteInsertOp env s.remote c first with
    | .error err =>
      { result := .error err, state := s, trace := [.remoteInsert c first] }
    | .ok r1 =>
      let s1 : ClientState := { s with remote := r1 }
      match remoteFlushOp env c with
      | .error err =>
        { result := .error err, state := s1,
          trace := [.remoteInsert c first, .remoteFlush c] }
      | .ok () =>
        { result := .ok (), state := s1,
          trace := [.remoteInsert c first, .remoteFlush c] }

/-- The try-body of insert (milvus.py lines 212-227): ensure the connection,
resolve the handle, then stamp and send. -/
def insertTry (env : Env) (s : ClientState) (c : String) (data : List Record) :
    Run Unit :=
  andThen (ensureConnection env s) (fun s1 =>
    andThen (getCollection env s1 c) (fun s2 => insertBody env s2 c data))

/-- insert (milvus.py lines 211-230): failures are logged and absorbed. -/
def insertOp (env : Env) (s : ClientState) (c : String) (data : List Record) :
    Done Unit :=
  let r := insertTry env s c data
  { result := (), state := r.state, trace := r.trace }

/-- The try-body of query (milvus.py lines 242-251): ensure the connection,
look the collection up in the cache only (ValueError on a miss, no lazy
creation), call load, then query. -/
def queryBody (env : Env) (s : ClientState) (c : String) (filters : String)
    (outputFields : List String) : Run (List Record) :=
  if listHas s.cache c then
    match remoteLoadOp env s.remote c with
    | .error err =>
      { result := .error err, state := s, trace := [.remoteLoad c] }
    | .ok r1 =>
      let s1 : ClientState := { s with remote := r1 }
      match remoteQueryOp env r1 c filters with
      | .error err =>
        { result := .error err, state := s1,
          trace := [.remoteLoad c, .remoteQuery c filters outputFields] }
      | .ok rows =>
        { result := .ok rows, state := s1,
          trace := [.remoteLoad c, .remoteQuery c filters outputFields] }
  else
    { result := .error "collection does not exist", state := s, trace := [] }

def queryTry (env : Env) (s : ClientState) (c : String) (filters : String)
    (outputFields : List String) : Run (List Record) :=
  andThen (ensureConnection env s) (fun s1 =>
    queryBody env s1 c filters outputFields)

/-- query (milvus.py lines 232-254): any failure degrades to the empty
list. -/
def queryOp (env : Env) (s : ClientState) (c : String) (filters : String)
    (outputFields : List String) : Done (List Record) :=
  let r := queryTry env s c filters outputFields
  { result := match r.result with | .ok v => v | .error _ => [],
    state := r.state, trace := r.trace }

/-- Normalize the raw hits (milvus.py lines 287-322): keep the hits exposing
id, distance and entity whose entity converts to a dict; skip the rest. -/
def normalizeHits (hits : List RawHit) : List SearchHit :=
  hits.filterMap (fun h =>
    if h.hasId && h.hasDistance && h.hasEntity && h.entityOk then
      some { id := h.id, distance := h.distance, entity := h.entity }
    else none)

/-- The try-body of search (milvus.py lines 271-322): ensure the connection,
cache-only lookup (ValueError on a miss), load, then a nearest-neighbor
search whose anns_field is hard-coded to the string embedding, followed by
hit normalization. -/
def searchBody (env : Env) (s : ClientState) (c : String) (topK : Nat) :
    Run (List SearchHit) :=
  if listHas s.cache c then
    match remoteLoadOp env s.remote c with
    | .error err =>
      { result := .error err, state := s, trace := [.remoteLoad c] }
    | .ok r1 =>
      let s1 : ClientState := { s with remote := r1 }
      match remoteSearchOp env r1 c "embedding" with
      | .error err =>
        { result := .error err, state := s1,
          trace := [.remoteLoad c, .remoteSearch c "embedding" topK] }
      | .ok hits =>
        { result := .ok (normalizeHits hits), state := s1,
          trace := [.remoteLoad c, .remoteSearch c "embedding" topK] }
  else
    { result := .error "collection does not exist", state := s, trace := [] }

def searchTry (env : Env) (s : ClientState) (c : String)
    (queryVector : List Int) (topK : Nat) (filters : String) :
    Run (List SearchHit) :=
  andThen (ensureConnection env s) (fun s1 => searchBody env s1 c topK)

/-- search (milvus.py lines 256-325): any failure degrades to the empty
list. -/
def searchOp (env : Env) (s : ClientState) (c : String)
    (queryVector : List Int) (topK : Nat) (filters : String) :
    Done (List SearchHit) :=
  let r := searchTry env s c queryVector topK filters
  { result := match r.result with | .ok v => v | .error _ => [],
    state := r.state, trace := r.trace }

/-- The try-body of get_latest_memory (milvus.py lines 348-361): resolve the
handle through _get_collection (the lazy path, and no ensure-connection
step), then query every row (wildcard fields, the remote-side ordering by
create_time is unmodelled) bounded by the limit. -/
def getLatestTry (env : Env) (s : ClientState) (c : String) (limit : Nat) :
    Run (List Record) :=
  let g := getCollection env s c
  match g.result with
  | .error err => { result := .error err, state := g.state, trace := g.trace }
  | .ok () =>
    match remoteQueryOp env g.state.remote c "" with
    | .error err =>
      { result := .error err, state := g.state,
        trace := g.trace ++ [.remoteQuery c "" ["*"]] }
    | .ok rows =>
      { result := .ok (rows.take limit), state := g.state,
        trace := g.trace ++ [.remoteQuery c "" ["*"]] }

/-- get_latest_memory (milvus.py lines 344-373): every failure kind degrades
to the empty list. -/
def getLatestOp (env : Env) (s : ClientState) (c : String) (limit : Nat) :
    Done (List Record) :=
  let r := getLatestTry env s c limit
  { result := match r.result with | .ok v => v | .error _ => [],
    state := r.state, trace := r.trace }

/-- The try-body of delete (milvus.py lines 377-384): cache-only lookup
(ValueError on a miss, and no ensure-connection step), then delete by
expression. -/
def deleteTry (env : Env) (s : ClientState) (c : String) (expr : String) :
    Run Unit :=
  if listHas s.cache c then
    match remoteDeleteOp env s.remote c expr with
    | .error err =>
      { result := .error err, state := s, trace := [.remoteDelete c expr] }
    | .ok r1 =>
      { result := .ok (), state := { s with remote := r1 },
        trace := [.remoteDelete c expr] }
  else
    { result := .error "collection does not exist", state := s, trace := [] }

/-- delete (milvus.py lines 375-386): failures are logged and absorbed. -/
def deleteOp (env : Env) (s : ClientState) (c : String) (expr : String) :
    Done Unit :=
  let r := deleteTry env s c expr
  { result := (), state := r.state, trace := r.trace }

/-- The tail of drop_collection (milvus.py lines 403-408): drop the
collection remotely, then remove the cache entry. -/
def dropRemote (env : Env) (s : ClientState) (r1 : RemoteState) (c : String)
    (tr : List Action) : Run Unit :=
  match remoteDropOp env r1 c with
  | .error err =>
    { result := .error err, state := { s with remote := r1 },
      trace := tr ++ [.remoteDrop c] }
  | .ok r2 =>
    { result := .ok (),
      state := { s with remote := r2, cache := listRemove s.cache c },
      trace := tr ++ [.remoteDrop c] }

/-- The try-body of drop_collection (milvus.py lines 394-410): warn-and-
return when the collection does not exist remotely; otherwise release the
handle when cached, drop remotely, and remove the cache entry. -/
def dropCollectionTry (env : Env) (s : ClientState) (c : String) : Run Unit :=
  if hasCollection s.remote c then
    if listHas s.cache c then
      match remoteReleaseOp env s.remote c with
      | .error err =>
        { result := .error err, state := s,
          trace := [.remoteHas c, .remoteRelease c] }
      | .ok r1 => dropRemote env s r1 c [.remoteHas c, .remoteRelease c]
    else
      dropRemote env s s.remote c [.remoteHas c]
  else
    { result := .ok (), state := s, trace := [.remoteHas c] }

/-- drop_collection (milvus.py lines 388-412): failures are logged and
absorbed. -/
def dropCollection (env : Env) (s : ClientState) (c : String) : Done Unit :=
  let r := dropCollectionTry env s c
  { result := (), state := r.state, trace := r.trace }

/-! ### Schema consistency checker -/

/-- Look a field up in the dict built by the comprehension on milvus.py line
433; a later duplicate name overwrites an earlier one, so the lookup finds
the last field with the name. -/
def findField : List RemoteField → String → Option RemoteField
  | [], _ => none
  | a :: rest, n => if a.name = n then some a else findField rest n

def existingLookup (fs : List RemoteField) (n : String) : Option RemoteField :=
  findField fs.reverse n

/-- The dtype / max_length / dim comparisons of check_field (milvus.py
lines 466-492) once the field was found by name. -/
def checkFieldFound (f : FieldDef) (a : RemoteField) : Bool :=
  if a.dtype != f.dtype then false
  else if f.dtype == DType.VARCHAR then f.max_length == a.max_length
  else if f.dtype == DType.FLOAT_VECTOR then f.dim == a.dim
  else true

/-- check_field (milvus.py lines 450-492): the expected field must exist by
name, the dtype must match, and VARCHAR / FLOAT_VECTOR fields additionally
compare max_length / dim (both sides read optionally). -/
def checkField (f : FieldDef) (fs : List RemoteField) : Bool :=
  match existingLookup fs f.name with
  | none => false
  | some a => checkFieldFound f a

/-- The loop over the expected fields (milvus.py lines 495-497), returning
false at the first mismatch, and the extra-field check (lines 500-508):
every actual field name must appear among the expected names. -/
def checkAllFields (expected : List FieldDef) (fs : List RemoteField) : Bool :=
  expected.all (fun f => checkField f fs) &&
    fs.all (fun a => expected.any (fun f => f.name == a.name))

/-- The try-body of check_collection_schema_consistency (milvus.py lines
423-511): ensure the connection, fail closed when the collection is absent,
when the actual field set is empty while the expected is not, or when the
expected field list is empty; otherwise compare field by field and reject
extra actual fields. -/
def checkSchemaBody (s : ClientState) (c : String) (expected : Schema) :
    Run Bool :=
  match lookupCol s.remote c with
  | none =>
    { result := .ok false, state := s, trace := [.remoteHas c] }
  | some col =>
    if col.fields = [] ∧ expected.fields ≠ [] then
      { result := .ok false, state := s, trace := [.remoteHas c] }
    else if expected.fields = [] then
      { result := .ok false, state := s, trace := [.remoteHas c] }
    else
      { result := .ok (checkAllFields expected.fields col.fields),
        state := s, trace := [.remoteHas c] }

def checkSchemaTry (env : Env) (s : ClientState) (c : String)
    (expected : Schema) : Run Bool :=
  andThen (ensureConnection env s) (fun s1 => checkSchemaBody s1 c expected)

/-- check_collection_schema_consistency (milvus.py lines 414-521): every
failure kind degrades to false. -/
def checkSchemaOp (env : Env) (s : ClientState) (c : String)
    (expected : Schema) : Done Bool :=
  let r := checkSchemaTry env s c expected
  { result := match r.result with | .ok b => b | .error _ => false,
    state := r.state, trace := r.trace }

/-- Modelled from the claim: one expected field is matched exactly by the
actual field set when some actual field carries its name, the same dtype,
the same max_length when the dtype is VARCHAR, and the same dim when the
dtype is FLOAT_VECTOR. -/
def fieldMatchesIn (fs : List RemoteField) (f : FieldDef) : Bool :=
  fs.any (fun a =>
    a.name == f.name && a.dtype == f.dtype &&
      (if f.dtype == DType.VARCHAR then f.max_length == a.max_length else true) &&
      (if f.dtype == DType.FLOAT_VECTOR then f.dim == a.dim else true))

/-- Modelled from the claim: the actual field set is exactly the expected
schema — every expected field is matched (same name, dtype equal, max_length
equal for VARCHAR, dim equal for FLOAT_VECTOR) and no actual field lies
outside the expected names. -/
def schemaExactMatch (fs : List RemoteField) (expected : List FieldDef) : Bool :=
  expected.all (fieldMatchesIn fs) &&
    fs.all (fun a => expected.any (fun f => f.name == a.name))

/-! ### Concrete fixtures -/

/-- A fault-free environment with a fixed clock. -/
def testEnv : Env :=
  { faults := [], now := 1000, matchExpr := fun _ _ => true,
    searchHits := fun _ => [] }

/-- An environment in which remote collection creation fails for mem2. -/
def faultyCreateEnv : Env :=
  { faults := [Fault.create "mem2"], now := 1000, matchExpr := fun _ _ => true,
    searchHits := fun _ => [] }

/-- A sample remote collection with an INT64 id and a FLOAT_VECTOR field
named embedding. -/
def memCollection : RemoteCollection :=
  { fields := [{ name := "id", dtype := DType.INT64 },
               { name := "embedding", dtype := DType.FLOAT_VECTOR, dim := some 4 }],
    indexes := [("embedding", defaultIndexParams)],
    loaded := true,
    rows := [] }

/-- A connected client caching the collection mem. -/
def connectedState : ClientState :=
  { connected := true, cache := ["mem"], remote := [("mem", memCollection)] }

/-- A client whose connection has dropped but whose cache still holds mem. -/
def disconnectedState : ClientState :=
  { connected := false, cache := ["mem"], remote := [("mem", memCollection)] }

/-- A connected client with an empty cache in front of an existing mem. -/
def emptyCacheState : ClientState :=
  { connected := true, cache := [], remote := [("mem", memCollection)] }

/-- A connected client with an empty cache in front of an existing but
unloaded mem. -/
def unloadedState : ClientState :=
  { connected := true, cache := [],
    remote := [("mem", { memCollection with loaded := false })] }

/-- An environment in which both the connect call and the creation of mem2
fail. -/
def dualFaultEnv : Env :=
  { faults := [Fault.connect, Fault.create "mem2"], now := 1000,
    matchExpr := fun _ _ => true, searchHits := fun _ => [] }

/-! ### Helper lemmas on the remote state -/

theorem lookupCol_set_self (r : RemoteState) (c : String)
    (col : RemoteCollection) : lookupCol (setCollection r c col) c = some col := by
  induction r with
  | nil => simp [setCollection, lookupCol]
  | cons p rest ih =>
    by_cases hp : p.1 = c <;> simp [setCollection, hp, lookupCol, ih]

theorem lookupCol_set_ne (r : RemoteState) (c c' : String)
    (col : RemoteCollection) (h : c ≠ c') :
    lookupCol (setCollection r c' col) c = lookupCol r c := by
  induction r with
  | nil => simp [setCollection, lookupCol, Ne.symm h]
  | cons p rest ih =>
    by_cases hp : p.1 = c' <;>
      by_cases hpc : p.1 = c <;>
        simp_all [setCollection, lookupCol, Ne.symm h]

theorem lookupCol_remove_self (r : RemoteState) (c : String) :
    lookupCol (removeCollection r c) c = none := by
  induction r with
  | nil => rfl
  | cons p rest ih =>
    by_cases hp : p.1 = c <;> simp [removeCollection, hp, lookupCol, ih]

theorem listHas_remove_self (l : List String) (c : String) :
    listHas (listRemove l c) c = false := by
  induction l with
  | nil => rfl
  | cons x rest ih =>
    by_cases hx : x = c <;> simp [listRemove, hx, listHas, ih]

theorem listHas_append_self (l : List String) (c : String) :
    listHas (l ++ [c]) c = true := by
  induction l with
  | nil => simp [listHas]
  | cons x rest ih => by_cases hx : x = c <;> simp [listHas, hx, ih]

/-! ### Claim C1 -/

/-- C1: the claim states that insert persists all N records of a non-empty
batch. The code sends only data[0] to the remote engine (milvus.py line
225): inserting a batch of two records into a loaded collection persists
exactly the first record (stamped with create_time), so one row results
where the claim requires two. Stamping and flushing do happen. -/
theorem insert_persists_only_first_record :
    ((lookupCol (insertOp testEnv connectedState "mem"
          [[("id", Value.int 1)], [("id", Value.int 2)]]).state.remote
        "mem").map (fun col => col.rows) =
        some [[("id", Value.int 1), ("create_time", Value.int 1000)]]) ∧
      Action.remoteFlush "mem" ∈
        (insertOp testEnv connectedState "mem"
          [[("id", Value.int 1)], [("id", Value.int 2)]]).trace := by
  constructor <;> decide

/-! ### Claim C6 -/

/-- C6: create_collection is idempotent by name: when the collection already
exists remotely, the call leaves the client and remote state untouched, its
only interaction is the existence check, and no remote creation happens
(and, the result being a plain value, nothing is raised). -/
theorem create_collection_idempotent
    (env : Env) (s : ClientState) (c : String) (schema : Schema)
    (h : hasCollection s.remote c = true) :
    (createCollection env s c schema).state = s ∧
      (createCollection env s c schema).trace = [Action.remoteHas c] ∧
      Action.remoteCreate c ∉ (createCollection env s c schema).trace := by
  unfold createCollection createCollectionTry
  simp [h]

/-- Witness for C6 at a concrete input: mem already exists remotely, so a
second creation call with a different schema is a no-op. -/
theorem create_collection_idempotent_witness :
    (createCollection testEnv connectedState "mem"
        { fields := [{ name := "other", dtype := DType.BOOL }] }).state =
        connectedState ∧
      (createCollection testEnv connectedState "mem"
        { fields := [{ name := "other", dtype := DType.BOOL }] }).trace =
        [Action.remoteHas "mem"] ∧
      Action.remoteCreate "mem" ∉
        (createCollection testEnv connectedState "mem"
          { fields := [{ name := "other", dtype := DType.BOOL }] }).trace :=
  create_collection_idempotent testEnv connectedState "mem"
    { fields := [{ name := "other", dtype := DType.BOOL }] } (by decide)

/-! ### Trace helper lemmas -/

theorem ensure_trace_head (env : Env) (s : ClientState) :
    (ensureConnection env s).trace.head? = some Action.ensureConn := by
  unfold ensureConnection
  split <;> rfl

theorem andThen_trace_head {α : Type} (a : Run Unit) (k : ClientState → Run α)
    (x : Action) (h : a.trace.head? = some x) :
    (andThen a k).trace.head? = some x := by
  unfold andThen
  match ha : a.result with
  | .error e => simpa [ha] using h
  | .ok () =>
    cases htr : a.trace with
    | nil => rw [htr] at h; cases h
    | cons y t => rw [htr] at h; simp [ha, htr]; simpa using h

theorem ensureConn_not_mem_getCollectionLoad (env : Env) (s1 : ClientState)
    (c : String) (tr1 : List Action) (h : Action.ensureConn ∉ tr1) :
    Action.ensureConn ∉ (getCollectionLoad env s1 c tr1).trace := by
  unfold getCollectionLoad
  split
  · split <;> simp_all
  · simp_all

theorem ensureConn_not_mem_getCollection (env : Env) (s : ClientState)
    (c : String) : Action.ensureConn ∉ (getCollection env s c).trace := by
  unfold getCollection
  split
  · exact ensureConn_not_mem_getCollectionLoad env s c [] (by simp)
  · split
    · exact ensureConn_not_mem_getCollectionLoad env _ c [Action.remoteHas c]
        (by simp)
    · simp

theorem ensureConn_not_mem_createFinish (env : Env) (s2 : ClientState)
    (c : String) (k1 : Except String Unit) (tr : List Action)
    (h : Action.ensureConn ∉ tr) :
    Action.ensureConn ∉ (createCollectionFinish env s2 c k1 tr).trace := by
  unfold createCollectionFinish
  split
  · exact h
  · split <;> simp_all

theorem ensureConn_not_mem_dropRemote (env : Env) (s : ClientState)
    (r1 : RemoteState) (c : String) (tr : List Action)
    (h : Action.ensureConn ∉ tr) :
    Action.ensureConn ∉ (dropRemote env s r1 c tr).trace := by
  unfold dropRemote
  split <;> simp_all

theorem ensureConn_not_mem_createIndexLoop (env : Env) (c : String) :
    ∀ (defs : List FieldDef) (r : RemoteState),
      Action.ensureConn ∉ (createIndexLoop env c defs r).2.2 := by
  intro defs
  induction defs with
  | nil => intro r; simp [createIndexLoop]
  | cons f rest ih =>
    intro r
    unfold createIndexLoop
    split
    · split
      · simp
      · simp only [List.mem_cons]
        intro hx
        rcases hx with hx | hx
        · cases hx
        · exact ih _ hx
    · exact ih r

/-! ### Claim C4 -/

/-- C4 counterexample: the claim states that every public operation calls
the ensure-connection step before any remote call. delete does not: on a
client whose connection has dropped, delete on a cached collection issues
the remote delete call directly, with no ensure-connection step in its
trace. -/
theorem delete_skips_ensure_connection :
    (deleteOp testEnv disconnectedState "mem" "id > 0").trace =
        [Action.remoteDelete "mem" "id > 0"] ∧
      Action.ensureConn ∉ (deleteOp testEnv disconnectedState "mem" "id > 0").trace ∧
      disconnectedState.connected = false ∧
      (Action.remoteDelete "mem" "id > 0").isRemote = true := by
  refine ⟨by decide, by decide, rfl, rfl⟩

/-- C4 (amended): insert, query, search and the schema check invoke the
ensure-connection step before anything else (their traces start with it),
while create_collection, get_latest_memory, delete and drop_collection never
invoke it at all. -/
theorem ensure_connection_discipline
    (env : Env) (s : ClientState) (c filt expr : String)
    (fields : List String) (data : List Record) (vec : List Int)
    (k limit : Nat) (schema : Schema) :
    (insertOp env s c data).trace.head? = some Action.ensureConn ∧
      (queryOp env s c filt fields).trace.head? = some Action.ensureConn ∧
      (searchOp env s c vec k filt).trace.head? = some Action.ensureConn ∧
      (checkSchemaOp env s c schema).trace.head? = some Action.ensureConn ∧
      Action.ensureConn ∉ (createCollection env s c schema).trace ∧
      Action.ensureConn ∉ (getLatestOp env s c limit).trace ∧
      Action.ensureConn ∉ (deleteOp env s c expr).trace ∧
      Action.ensureConn ∉ (dropCollection env s c).trace := by
  refine ⟨?_, ?_, ?_, ?_, ?_, ?_, ?_, ?_⟩
  · exact andThen_trace_head _ _ _ (ensure_trace_head env s)
  · exact andThen_trace_head _ _ _ (ensure_trace_head env s)
  · exact andThen_trace_head _ _ _ (ensure_trace_head env s)
  · exact andThen_trace_head _ _ _ (ensure_trace_head env s)
  · simp only [createCollection, createCollectionTry]
    split
    · simp
    · split
      · simp
      · split
        · simp
        · apply ensureConn_not_mem_createFinish
          simp only [List.cons_append, List.nil_append, List.mem_cons,
            List.mem_append]
          intro hx
          rcases hx with hx | hx | hx
          · cases hx
          · cases hx
          · exact ensureConn_not_mem_createIndexLoop env c _ _ hx
  · simp only [getLatestOp, getLatestTry]
    split
    · exact ensureConn_not_mem_getCollection env s c
    · split <;>
      · intro hx
        rcases List.mem_append.mp hx with hx | hx
        · exact ensureConn_not_mem_getCollection env s c hx
        · simp at hx
  · simp only [deleteOp, deleteTry]
    split
    · split <;> simp
    · simp
  · simp only [dropCollection, dropCollectionTry]
    split
    · split
      · split
        · simp
        · exact ensureConn_not_mem_dropRemote env s _ c _ (by simp)
      · exact ensureConn_not_mem_dropRemote env s _ c _ (by simp)
    · simp

/-! ### Claim C5 -/

/-- C5: query and search never raise (their public forms return plain
lists): each either returns exactly what the successful try-body produced,
or the try-body failed and the result is the empty list; in particular a
collection missing from the local cache on a connected client yields the
empty list for both. -/
theorem query_search_absorb_failures
    (env : Env) (s : ClientState) (c filt : String) (fields : List String)
    (vec : List Int) (k : Nat) :
    ((queryOp env s c filt fields).result = [] ∨
      (queryTry env s c filt fields).result =
        .ok (queryOp env s c filt fields).result) ∧
    ((searchOp env s c vec k filt).result = [] ∨
      (searchTry env s c vec k filt).result =
        .ok (searchOp env s c vec k filt).result) ∧
    (s.connected = true → listHas s.cache c = false →
      (queryOp env s c filt fields).result = [] ∧
      (searchOp env s c vec k filt).result = []) := by
  refine ⟨?_, ?_, ?_⟩
  · cases h : (queryTry env s c filt fields).result with
    | error e => left; simp [queryOp, h]
    | ok v => right; simp [queryOp, h]
  · cases h : (searchTry env s c vec k filt).result with
    | error e => left; simp [searchOp, h]
    | ok v => right; simp [searchOp, h]
  · intro hconn hmiss
    have he : ensureConnection env s =
        { result := .ok (), state := s, trace := [Action.ensureConn] } := by
      unfold ensureConnection
      simp [hconn]
    constructor
    · have : (queryTry env s c filt fields).result =
          .error "collection does not exist" := by
        unfold queryTry andThen
        simp [he, queryBody, hmiss]
      simp [queryOp, this]
    · have : (searchTry env s c vec k filt).result =
          .error "collection does not exist" := by
        unfold searchTry andThen
        simp [he, searchBody, hmiss]
      simp [searchOp, this]

/-- Witness for C5 at a concrete input: a connected client that has not
cached the collection gets empty results from query and search. -/
theorem query_search_absorb_failures_witness :
    ((queryOp testEnv emptyCacheState "mem" "id > 0" ["id"]).result = [] ∨
      (queryTry testEnv emptyCacheState "mem" "id > 0" ["id"]).result =
        .ok (queryOp testEnv emptyCacheState "mem" "id > 0" ["id"]).result) ∧
    ((searchOp testEnv emptyCacheState "mem" [1] 3 "").result = [] ∨
      (searchTry testEnv emptyCacheState "mem" [1] 3 "").result =
        .ok (searchOp testEnv emptyCacheState "mem" [1] 3 "").result) ∧
    (emptyCacheState.connected = true → listHas emptyCacheState.cache "mem" = false →
      (queryOp testEnv emptyCacheState "mem" "id > 0" ["id"]).result = [] ∧
      (searchOp testEnv emptyCacheState "mem" [1] 3 "").result = []) :=
  query_search_absorb_failures testEnv emptyCacheState "mem" "id > 0" ["id"] [1] 3

/-! ### Claim C9 -/

/-- C9 counterexample: the claim states that collection-creation failures
are re-raised to the caller. They are not: with the remote creation call
failing, the try-body of create_collection ends in an error, yet the public
create_collection returns normally with the state unchanged — the except
block only logs (milvus.py lines 208-209 contain no raise). -/
theorem create_collection_absorbs_creation_failure :
    (createCollectionTry faultyCreateEnv connectedState "mem2"
        { fields := [{ name := "id", dtype := DType.INT64, is_primary := true }] }).result =
      .error "create failed" ∧
    (createCollection faultyCreateEnv connectedState "mem2"
        { fields := [{ name := "id", dtype := DType.INT64, is_primary := true }] }).state =
      connectedState := by
  exact ⟨rfl, by decide⟩

/-- C9 (amended): connection-establishment failures are re-raised (connect,
and ensure-connection on a disconnected client, end in an error the caller
sees), while collection-creation failures are absorbed: whenever the
try-body of create_collection fails, the public operation still returns
normally, keeping the try-body state. -/
theorem connect_raises_create_absorbs
    (env : Env) (s : ClientState) (c : String) (schema : Schema) (e : String)
    (hc : Fault.connect ∈ env.faults)
    (hs : s.connected = false)
    (he : (createCollectionTry env s c schema).result = .error e) :
    (connect env s).result = .error "connect failed" ∧
      (ensureConnection env s).result = .error "connect failed" ∧
      (createCollection env s c schema).result = () ∧
      (createCollection env s c schema).state =
        (createCollectionTry env s c schema).state ∧
      (createCollection env s c schema).trace =
        (createCollectionTry env s c schema).trace := by
  have hcon : (connect env s).result = .error "connect failed" := by
    unfold connect
    simp [hc]
  refine ⟨hcon, ?_, rfl, rfl, rfl⟩
  unfold ensureConnection
  simp [hs, hcon]

/-- Witness for C9 at a concrete input: with both the connect call and the
creation of mem2 failing, connect raises while create_collection completes
normally. -/
theorem connect_raises_create_absorbs_witness :
    (connect dualFaultEnv disconnectedState).result = .error "connect failed" ∧
      (ensureConnection dualFaultEnv disconnectedState).result =
        .error "connect failed" ∧
      (createCollection dualFaultEnv disconnectedState "mem2"
        { fields := [{ name := "id", dtype := DType.INT64 }] }).result = () ∧
      (createCollection dualFaultEnv disconnectedState "mem2"
        { fields := [{ name := "id", dtype := DType.INT64 }] }).state =
        (createCollectionTry dualFaultEnv disconnectedState "mem2"
          { fields := [{ name := "id", dtype := DType.INT64 }] }).state ∧
      (createCollection dualFaultEnv disconnectedState "mem2"
        { fields := [{ name := "id", dtype := DType.INT64 }] }).trace =
        (createCollectionTry dualFaultEnv disconnectedState "mem2"
          { fields := [{ name := "id", dtype := DType.INT64 }] }).trace :=
  connect_raises_create_absorbs dualFaultEnv disconnectedState "mem2"
    { fields := [{ name := "id", dtype := DType.INT64 }] } "create failed"
    (by decide) rfl rfl

/-! ### Claim C3 -/

theorem getCollectionLoad_spec (env : Env) (s1 : ClientState) (c : String)
    (tr1 : List Action) (hcol : hasCollection s1.remote c = true) :
    (getCollectionLoad env s1 c tr1).state.cache = s1.cache ∧
      Action.remoteLoadState c ∈ (getCollectionLoad env s1 c tr1).trace ∧
      (loadState s1.remote c ≠ "Loaded" →
        Action.remoteLoad c ∈ (getCollectionLoad env s1 c tr1).trace) ∧
      (Fault.load c ∉ env.faults →
        loadState (getCollectionLoad env s1 c tr1).state.remote c = "Loaded") := by
  obtain ⟨col, hx⟩ : ∃ col, lookupCol s1.remote c = some col := by
    unfold hasCollection at hcol
    cases h : lookupCol s1.remote c with
    | none => rw [h] at hcol; cases hcol
    | some col => exact ⟨col, rfl⟩
  unfold getCollectionLoad
  by_cases hls : loadState s1.remote c = "Loaded"
  · rw [if_neg (fun h => h hls)]
    exact ⟨rfl, by simp, fun h => absurd hls h, fun _ => hls⟩
  · rw [if_pos hls]
    cases hload : remoteLoadOp env s1.remote c with
    | ok r' =>
      simp only [hload]
      refine ⟨by trivial, by simp, fun _ => by simp, fun hf => ?_⟩
      unfold remoteLoadOp at hload
      rw [if_neg hf, hx] at hload
      cases hload
      simp [loadState, lookupCol_set_self]
    | error e =>
      simp only [hload]
      refine ⟨by trivial, by simp, fun _ => by simp, fun hf => ?_⟩
      unfold remoteLoadOp at hload
      rw [if_neg hf, hx] at hload
      cases hload

/-- C3: resolving a handle through _get_collection fails with NotFound for a
name neither cached nor existing remotely (leaving the state untouched);
for a name that does exist remotely, after the call the handle is cached,
the remote load state was re-queried, a load was issued whenever the remote
reported not-loaded, and (when the load call does not fault) the collection
ends up loaded. -/
theorem get_collection_resolution (env : Env) (s : ClientState) (c : String) :
    (listHas s.cache c = false → hasCollection s.remote c = false →
      (getCollection env s c).result = .error "collection does not exist" ∧
      (getCollection env s c).state = s) ∧
    (hasCollection s.remote c = true →
      listHas (getCollection env s c).state.cache c = true ∧
      Action.remoteLoadState c ∈ (getCollection env s c).trace ∧
      (loadState s.remote c ≠ "Loaded" →
        Action.remoteLoad c ∈ (getCollection env s c).trace) ∧
      (Fault.load c ∉ env.faults →
        loadState (getCollection env s c).state.remote c = "Loaded")) := by
  constructor
  · intro hmiss hno
    unfold getCollection
    rw [hmiss, hno]
    exact ⟨rfl, rfl⟩
  · intro hcol
    unfold getCollection
    cases hhit : listHas s.cache c with
    | true =>
      simp only [if_pos, if_true]
      have h := getCollectionLoad_spec env s c [] hcol
      exact ⟨by rw [h.1, hhit], h.2.1, h.2.2.1, h.2.2.2⟩
    | false =>
      simp only [Bool.false_eq_true, if_false, if_neg, hcol, if_pos, if_true]
      have h := getCollectionLoad_spec env { s with cache := s.cache ++ [c] } c
        [Action.remoteHas c] hcol
      exact ⟨by rw [h.1]; exact listHas_append_self s.cache c,
        h.2.1, h.2.2.1, h.2.2.2⟩

/-- Witness for C3 at concrete inputs: ghost is neither cached nor remote,
so resolution fails; mem exists remotely but is unloaded, so after
resolution it is cached and loaded. -/
theorem get_collection_resolution_witness :
    (getCollection testEnv emptyCacheState "ghost").result =
        .error "collection does not exist" ∧
      listHas (getCollection testEnv unloadedState "mem").state.cache "mem" =
        true ∧
      loadState (getCollection testEnv unloadedState "mem").state.remote "mem" =
        "Loaded" :=
  ⟨((get_collection_resolution testEnv emptyCacheState "ghost").1 (by decide)
      (by decide)).1,
   ((get_collection_resolution testEnv unloadedState "mem").2 (by decide)).1,
   ((get_collection_resolution testEnv unloadedState "mem").2 (by decide)).2.2.2
     (by decide)⟩

/-! ### Claim C8 -/

theorem dropRemote_spec (env : Env) (s : ClientState) (r1 : RemoteState)
    (c : String) (tr : List Action) (hf : Fault.drop c ∉ env.faults) :
    (dropRemote env s r1 c tr).trace = tr ++ [Action.remoteDrop c] ∧
      hasCollection (dropRemote env s r1 c tr).state.remote c = false ∧
      listHas (dropRemote env s r1 c tr).state.cache c = false := by
  unfold dropRemote remoteDropOp
  rw [if_neg hf]
  exact ⟨rfl, by simp [hasCollection, lookupCol_remove_self],
    listHas_remove_self s.cache c⟩

/-- C8: drop_collection on a remotely non-existent collection is a pure
no-op beyond the existence check; on an existing collection it releases the
cached handle strictly before dropping remotely (visible in the trace
order), and afterwards the name is in neither the cache nor the remote
engine. -/
theorem drop_collection_spec (env : Env) (s : ClientState) (c : String) :
    (hasCollection s.remote c = false →
      (dropCollection env s c).state = s ∧
      (dropCollection env s c).trace = [Action.remoteHas c]) ∧
    (hasCollection s.remote c = true → listHas s.cache c = true →
      Fault.release c ∉ env.faults → Fault.drop c ∉ env.faults →
      (dropCollection env s c).trace =
        [Action.remoteHas c, Action.remoteRelease c, Action.remoteDrop c] ∧
      listHas (dropCollection env s c).state.cache c = false ∧
      hasCollection (dropCollection env s c).state.remote c = false) ∧
    (hasCollection s.remote c = true → listHas s.cache c = false →
      Fault.drop c ∉ env.faults →
      (dropCollection env s c).trace =
        [Action.remoteHas c, Action.remoteDrop c] ∧
      listHas (dropCollection env s c).state.cache c = false ∧
      hasCollection (dropCollection env s c).state.remote c = false) := by
  refine ⟨?_, ?_, ?_⟩
  · intro hno
    unfold dropCollection dropCollectionTry
    rw [hno]
    exact ⟨rfl, rfl⟩
  · intro hcol hcache hrel hdrop
    obtain ⟨col, hx⟩ : ∃ col, lookupCol s.remote c = some col := by
      unfold hasCollection at hcol
      cases h : lookupCol s.remote c with
      | none => rw [h] at hcol; cases hcol
      | some col => exact ⟨col, rfl⟩
    unfold dropCollection dropCollectionTry
    rw [hcol, hcache]
    have hrelease : remoteReleaseOp env s.remote c =
        .ok (setCollection s.remote c { col with loaded := false }) := by
      unfold remoteReleaseOp
      rw [if_neg hrel, hx]
    rw [if_pos rfl, if_pos rfl, hrelease]
    have h := dropRemote_spec env s
      (setCollection s.remote c { col with loaded := false }) c
      [Action.remoteHas c, Action.remoteRelease c] hdrop
    exact ⟨h.1, h.2.2, h.2.1⟩
  · intro hcol hcache hdrop
    unfold dropCollection dropCollectionTry
    rw [hcol, hcache]
    have h := dropRemote_spec env s s.remote c [Action.remoteHas c] hdrop
    rw [if_pos rfl]
    simp only [Bool.false_eq_true, if_false, if_neg]
    exact ⟨h.1, h.2.2, h.2.1⟩

/-- Witness for C8 at concrete inputs: dropping the cached, existing mem
releases it, drops it, and clears both sides; dropping the absent ghost is
a no-op. -/
theorem drop_collection_spec_witness :
    ((dropCollection testEnv connectedState "ghost").state = connectedState ∧
      (dropCollection testEnv connectedState "ghost").trace =
        [Action.remoteHas "ghost"]) ∧
    ((dropCollection testEnv connectedState "mem").trace =
        [Action.remoteHas "mem", Action.remoteRelease "mem",
          Action.remoteDrop "mem"] ∧
      listHas (dropCollection testEnv connectedState "mem").state.cache "mem" =
        false ∧
      hasCollection (dropCollection testEnv connectedState "mem").state.remote
        "mem" = false) :=
  ⟨(drop_collection_spec testEnv connectedState "ghost").1 (by decide),
   (drop_collection_spec testEnv connectedState "mem").2.1 (by decide)
     (by decide) (by decide) (by decide)⟩

/-! ### Claim C7 -/

/-- The index layout create_collection provisions: one index per
FLOAT_VECTOR field, with the caller's parameters when supplied (non-empty)
and the IVF_FLAT / L2 / nlist=256 default otherwise. -/
def vectorIndexPlan (defs : List FieldDef) : List (String × IndexParams) :=
  (defs.filter (fun f => f.dtype == DType.FLOAT_VECTOR)).map
    (fun f => (f.name,
      if f.index_params = [] then defaultIndexParams else f.index_params))

theorem createCollectionFinish_state (env : Env) (s2 : ClientState)
    (c : String) (k1 : Except String Unit) (tr : List Action) :
    (createCollectionFinish env s2 c k1 tr).state = s2 := by
  unfold createCollectionFinish
  split
  · rfl
  · split <;> rfl

theorem createIndexLoop_indexes (env : Env) (c : String)
    (hf : Fault.createIndex c ∉ env.faults) :
    ∀ (defs : List FieldDef) (r : RemoteState) (col : RemoteCollection),
      lookupCol r c = some col →
      lookupCol (createIndexLoop env c defs r).2.1 c =
        some { col with indexes := col.indexes ++ vectorIndexPlan defs } := by
  intro defs
  induction defs with
  | nil =>
    intro r col h
    simpa [createIndexLoop, vectorIndexPlan] using h
  | cons f rest ih =>
    intro r col h
    unfold createIndexLoop
    by_cases hd : (f.dtype == DType.FLOAT_VECTOR) = true
    · rw [if_pos hd, if_neg hf]
      have hset : lookupCol (addIndex r c f.name (effIndexParams f)) c =
          some { col with
                 indexes := col.indexes ++ [(f.name, effIndexParams f)] } := by
        unfold addIndex
        rw [h]
        exact lookupCol_set_self r c _
      have := ih (addIndex r c f.name (effIndexParams f))
        { col with indexes := col.indexes ++ [(f.name, effIndexParams f)] } hset
      simp only [this]
      simp [vectorIndexPlan, effIndexParams, List.filter_cons, hd,
        List.append_assoc]
    · rw [if_neg hd]
      have := ih r col h
      rw [this]
      simp [vectorIndexPlan, List.filter_cons, hd]

/-- C7: on the creation path (collection new, remote creation and index
creation succeeding), the created collection carries exactly one index per
FLOAT_VECTOR field of the schema: the caller's index parameters verbatim
when supplied, and the IVF_FLAT / L2 / nlist=256 default otherwise. -/
theorem create_collection_provisions_indexes
    (env : Env) (s : ClientState) (c : String) (schema : Schema)
    (rfields : List RemoteField)
    (hnew : hasCollection s.remote c = false)
    (hfields : buildFields schema.fields = .ok rfields)
    (hcr : Fault.create c ∉ env.faults)
    (hidx : Fault.createIndex c ∉ env.faults) :
    lookupCol (createCollection env s c schema).state.remote c =
      some { fields := rfields, indexes := vectorIndexPlan schema.fields,
             loaded := false, rows := [] } := by
  simp only [createCollection, createCollectionTry, hnew, Bool.false_eq_true,
    if_false, hfields, hcr, not_false_eq_true, if_neg,
    createCollectionFinish_state]
  have := createIndexLoop_indexes env c hidx schema.fields
    (setCollection s.remote c { fields := rfields })
    { fields := rfields, indexes := [], loaded := false, rows := [] }
    (lookupCol_set_self s.remote c _)
  simpa using this

/-- Witness for C7 at a concrete input: creating mem2 with an INT64 id and
a FLOAT_VECTOR field named embedding with no index parameters leaves mem2
carrying exactly the default IVF_FLAT / L2 / nlist=256 index on
embedding. -/
theorem create_collection_provisions_indexes_witness :
    lookupCol (createCollection testEnv emptyCacheState "mem2"
        { fields := [{ name := "id", dtype := DType.INT64, is_primary := true },
                     { name := "embedding", dtype := DType.FLOAT_VECTOR,
                       dim := some 4 }] }).state.remote "mem2" =
      some { fields := [{ name := "id", dtype := DType.INT64 },
                        { name := "embedding", dtype := DType.FLOAT_VECTOR,
                          dim := some 4 }],
             indexes := [("embedding", defaultIndexParams)],
             loaded := false, rows := [] } :=
  create_collection_provisions_indexes testEnv emptyCacheState "mem2"
    { fields := [{ name := "id", dtype := DType.INT64, is_primary := true },
                 { name := "embedding", dtype := DType.FLOAT_VECTOR,
                   dim := some 4 }] }
    [{ name := "id", dtype := DType.INT64 },
     { name := "embedding", dtype := DType.FLOAT_VECTOR, dim := some 4 }]
    (by decide) rfl (by decide) (by decide)

/-! ### Claim C2 -/

theorem findField_some_mem (fs : List RemoteField) (n : String)
    (a : RemoteField) (h : findField fs n = some a) :
    a ∈ fs ∧ a.name = n := by
  induction fs with
  | nil => cases h
  | cons b rest ih =>
    unfold findField at h
    by_cases hb : b.name = n
    · rw [if_pos hb] at h
      injection h with h2
      subst h2
      exact ⟨List.mem_cons_self _ _, hb⟩
    · rw [if_neg hb] at h
      obtain ⟨h1, h2⟩ := ih h
      exact ⟨List.mem_cons_of_mem b h1, h2⟩

theorem findField_of_mem (fs : List RemoteField) (a : RemoteField)
    (h : (fs.map (fun x => x.name)).Nodup) (ha : a ∈ fs) :
    findField fs a.name = some a := by
  induction fs with
  | nil => cases ha
  | cons b rest ih =>
    simp only [List.map_cons, List.nodup_cons] at h
    rcases List.mem_cons.mp ha with hb | hb
    · subst hb
      simp [findField]
    · have hne : ¬ b.name = a.name := fun hx =>
        h.1 (hx ▸ List.mem_map.mpr ⟨a, hb, rfl⟩)
      rw [findField, if_neg hne]
      exact ih h.2 hb

theorem reverse_names_nodup (fs : List RemoteField)
    (h : (fs.map (fun x => x.name)).Nodup) :
    (fs.reverse.map (fun x => x.name)).Nodup := by
  rw [List.map_reverse]
  exact List.nodup_reverse.mpr h

theorem existingLookup_eq_some (fs : List RemoteField) (a : RemoteField)
    (h : (fs.map (fun x => x.name)).Nodup) (ha : a ∈ fs) :
    existingLookup fs a.name = some a := by
  unfold existingLookup
  exact findField_of_mem fs.reverse a (reverse_names_nodup fs h)
    (List.mem_reverse.mpr ha)

theorem checkField_eq_found (f : FieldDef) (fs : List RemoteField)
    (a : RemoteField) (h : existingLookup fs f.name = some a) :
    checkField f fs = checkFieldFound f a := by
  unfold checkField
  rw [h]

theorem checkField_eq_false (f : FieldDef) (fs : List RemoteField)
    (h : existingLookup fs f.name = none) : checkField f fs = false := by
  unfold checkField
  rw [h]

theorem checkFieldFound_eq_pred (f : FieldDef) (a : RemoteField) :
    checkFieldFound f a =
      ((a.dtype == f.dtype) &&
       (if f.dtype == DType.VARCHAR then f.max_length == a.max_length
        else true) &&
       (if f.dtype == DType.FLOAT_VECTOR then f.dim == a.dim else true)) := by
  unfold checkFieldFound
  by_cases hdt : a.dtype = f.dtype
  · rw [hdt]
    cases hdty : f.dtype <;> simp
  · have h1 : (a.dtype != f.dtype) = true := by
      simpa [bne_iff_ne] using hdt
    have h2 : (a.dtype == f.dtype) = false := by
      simpa using hdt
    simp [h1, h2]

theorem checkField_iff (f : FieldDef) (fs : List RemoteField)
    (h : (fs.map (fun x => x.name)).Nodup) :
    checkField f fs = true ↔ fieldMatchesIn fs f = true := by
  constructor
  · intro hc
    cases hfind : existingLookup fs f.name with
    | none =>
      rw [checkField_eq_false f fs hfind] at hc
      cases hc
    | some a =>
      rw [checkField_eq_found f fs a hfind, checkFieldFound_eq_pred] at hc
      simp only [Bool.and_eq_true] at hc
      obtain ⟨⟨hdt, hg1⟩, hg2⟩ := hc
      unfold existingLookup at hfind
      obtain ⟨hmem, hname⟩ := findField_some_mem fs.reverse f.name a hfind
      unfold fieldMatchesIn
      rw [List.any_eq_true]
      refine ⟨a, List.mem_reverse.mp hmem, ?_⟩
      simp only [Bool.and_eq_true]
      exact ⟨⟨⟨by simp [hname], hdt⟩, hg1⟩, hg2⟩
  · intro hm
    unfold fieldMatchesIn at hm
    rw [List.any_eq_true] at hm
    obtain ⟨a, hmem, hpred⟩ := hm
    simp only [Bool.and_eq_true] at hpred
    obtain ⟨⟨⟨hb, hdt⟩, hg1⟩, hg2⟩ := hpred
    have hname : a.name = f.name := eq_of_beq hb
    have hfind : existingLookup fs f.name = some a := by
      rw [← hname]
      exact existingLookup_eq_some fs a h hmem
    rw [checkField_eq_found f fs a hfind, checkFieldFound_eq_pred]
    simp only [Bool.and_eq_true]
    exact ⟨⟨hdt, hg1⟩, hg2⟩

theorem checkAllFields_iff (expected : List FieldDef) (fs : List RemoteField)
    (h : (fs.map (fun x => x.name)).Nodup) :
    checkAllFields expected fs = true ↔ schemaExactMatch fs expected = true := by
  unfold checkAllFields schemaExactMatch
  simp only [Bool.and_eq_true, List.all_eq_true]
  constructor
  · rintro ⟨h1, h2⟩
    exact ⟨fun f hf => (checkField_iff f fs h).mp (h1 f hf), h2⟩
  · rintro ⟨h1, h2⟩
    exact ⟨fun f hf => (checkField_iff f fs h).mpr (h1 f hf), h2⟩

theorem checkSchemaBody_eq_some (s : ClientState) (c : String)
    (schema : Schema) (col : RemoteCollection)
    (h : lookupCol s.remote c = some col) :
    checkSchemaBody s c schema =
      (if col.fields = [] ∧ schema.fields ≠ [] then
        { result := .ok false, state := s, trace := [Action.remoteHas c] }
       else if schema.fields = [] then
        { result := .ok false, state := s, trace := [Action.remoteHas c] }
       else
        { result := .ok (checkAllFields schema.fields col.fields), state := s,
          trace := [Action.remoteHas c] }) := by
  unfold checkSchemaBody
  rw [h]

/-- C2 counterexample: the claim states the check returns true exactly when
the actual field set is exactly the expected one. With both field sets
empty they coincide exactly (the match predicate holds vacuously), yet the
check fails closed on the empty expected list and returns false. -/
theorem check_schema_rejects_equal_empty_schemas :
    (checkSchemaOp testEnv
        { connected := true, cache := [],
          remote := [("empty", { fields := [] })] }
        "empty" { fields := [] }).result = false ∧
      schemaExactMatch [] [] = true :=
  ⟨rfl, rfl⟩

/-- C2 (amended): for a connected client and an existing collection whose
field names are duplicate-free, and a non-empty expected field list, the
schema-consistency check returns true exactly when the actual field set is
exactly the expected schema: every expected field is present by name with
the same dtype (and the same max_length for VARCHAR, the same dim for
FLOAT_VECTOR), and no actual field lies outside the expected names. When
the expected field list is empty the check fails closed and returns false,
even if the actual field set is empty as well. -/
theorem check_schema_iff_exact_match
    (env : Env) (s : ClientState) (c : String) (schema : Schema)
    (col : RemoteCollection)
    (hconn : s.connected = true)
    (hcol : lookupCol s.remote c = some col)
    (hnodup : (col.fields.map (fun x => x.name)).Nodup)
    (hne : schema.fields ≠ []) :
    ((checkSchemaOp env s c schema).result = true ↔
      schemaExactMatch col.fields schema.fields = true) := by
  have he : ensureConnection env s =
      { result := .ok (), state := s, trace := [Action.ensureConn] } := by
    unfold ensureConnection
    simp [hconn]
  have htry : (checkSchemaTry env s c schema).result =
      (checkSchemaBody s c schema).result := by
    unfold checkSchemaTry andThen
    rw [he]
  have hbody := checkSchemaBody_eq_some s c schema col hcol
  by_cases hempty : col.fields = []
  · have hres : (checkSchemaOp env s c schema).result = false := by
      simp only [checkSchemaOp]
      rw [htry, hbody, if_pos ⟨hempty, hne⟩]
    rw [hres, hempty]
    constructor
    · intro hx; cases hx
    · intro hx
      exfalso
      unfold schemaExactMatch at hx
      simp only [Bool.and_eq_true, List.all_eq_true] at hx
      obtain ⟨f, hf⟩ := List.exists_mem_of_ne_nil schema.fields hne
      have hfm := hx.1 f hf
      simp [fieldMatchesIn] at hfm
  · have hres : (checkSchemaOp env s c schema).result =
        checkAllFields schema.fields col.fields := by
      simp only [checkSchemaOp]
      rw [htry, hbody, if_neg (fun hx => hempty hx.1), if_neg hne]
    rw [hres]
    exact checkAllFields_iff schema.fields col.fields hnodup

/-- Witness for C2 at a concrete input: checking mem against exactly its
own field layout. -/
theorem check_schema_iff_exact_match_witness :
    (checkSchemaOp testEnv connectedState "mem"
        { fields := [{ name := "id", dtype := DType.INT64 },
                     { name := "embedding", dtype := DType.FLOAT_VECTOR,
                       dim := some 4 }] }).result = true ↔
      schemaExactMatch memCollection.fields
        [{ name := "id", dtype := DType.INT64 },
         { name := "embedding", dtype := DType.FLOAT_VECTOR,
           dim := some 4 }] = true :=
  check_schema_iff_exact_match testEnv connectedState "mem"
    { fields := [{ name := "id", dtype := DType.INT64 },
                 { name := "embedding", dtype := DType.FLOAT_VECTOR,
                   dim := some 4 }] }
    memCollection rfl rfl (by decide) (by decide)

/-! ### Claim C10 -/

/-- Does the action, when it is a remote vector search, target the field
named embedding? -/
def annsOk : Action → Bool
  | .remoteSearch _ af _ => af == "embedding"
  | _ => true

/-- The schema fields of every collection, as the remote holds them. -/
def fieldsView (r : RemoteState) (c : String) : Option (List RemoteField) :=
  (lookupCol r c).map (fun col => col.fields)

theorem vectorFieldNames_congr (r r' : RemoteState) (c : String)
    (h : fieldsView r' c = fieldsView r c) :
    vectorFieldNames r' c = vectorFieldNames r c := by
  unfold fieldsView at h
  unfold vectorFieldNames
  cases h1 : lookupCol r' c <;> cases h2 : lookupCol r c <;>
    rw [h1, h2] at h <;> simp_all

theorem connectStep_fieldsView (env : Env) (r : RemoteState) (c x : String) :
    fieldsView (connectStep env r c).1 x = fieldsView r x := by
  unfold connectStep
  split
  next => rfl
  next col heq =>
    by_cases h1 : col.indexes = []
    · rw [if_pos h1]
    · rw [if_neg h1]
      by_cases h2 : Fault.load c ∈ env.faults
      · rw [if_pos h2]
      · rw [if_neg h2]
        unfold fieldsView
        by_cases hx : x = c
        · subst hx
          rw [lookupCol_set_self, heq]
          rfl
        · rw [lookupCol_set_ne _ _ _ _ hx]

theorem connectRefresh_fieldsView (env : Env) :
    ∀ (names : List String) (r : RemoteState) (x : String),
      fieldsView (connectRefresh env names r).1 x = fieldsView r x := by
  intro names
  induction names with
  | nil => intro r x; rfl
  | cons c rest ih =>
    intro r x
    simp only [connectRefresh]
    rw [ih, connectStep_fieldsView]

theorem connect_fieldsView (env : Env) (s : ClientState) (x : String) :
    fieldsView (connect env s).state.remote x = fieldsView s.remote x := by
  unfold connect
  split
  · rfl
  · exact connectRefresh_fieldsView env _ s.remote x

theorem ensure_fieldsView (env : Env) (s : ClientState) (x : String) :
    fieldsView (ensureConnection env s).state.remote x =
      fieldsView s.remote x := by
  unfold ensureConnection
  split
  · rfl
  · exact connect_fieldsView env s x

theorem remoteLoadOp_fieldsView (env : Env) (r : RemoteState) (c : String)
    (r' : RemoteState) (h : remoteLoadOp env r c = .ok r') (x : String) :
    fieldsView r' x = fieldsView r x := by
  unfold remoteLoadOp at h
  split at h
  · cases h
  · cases hc : lookupCol r c with
    | none => rw [hc] at h; cases h
    | some col =>
      rw [hc] at h
      injection h with h2
      subst h2
      unfold fieldsView
      by_cases hx : x = c
      · subst hx
        rw [lookupCol_set_self, hc]
        rfl
      · rw [lookupCol_set_ne _ _ _ _ hx]

theorem connectStep_trace_annsOk (env : Env) (r : RemoteState) (c : String) :
    (connectStep env r c).2.2.all annsOk = true := by
  unfold connectStep
  split
  next => rfl
  next col heq =>
    by_cases h1 : col.indexes = []
    · rw [if_pos h1]
      rfl
    · rw [if_neg h1]
      by_cases h2 : Fault.load c ∈ env.faults
      · rw [if_pos h2]
        rfl
      · rw [if_neg h2]
        rfl

theorem connectRefresh_trace_annsOk (env : Env) :
    ∀ (names : List String) (r : RemoteState),
      (connectRefresh env names r).2.2.all annsOk = true := by
  intro names
  induction names with
  | nil => intro r; rfl
  | cons c rest ih =>
    intro r
    simp only [connectRefresh, List.all_append]
    rw [connectStep_trace_annsOk, ih]
    rfl

theorem ensure_trace_annsOk (env : Env) (s : ClientState) :
    (ensureConnection env s).trace.all annsOk = true := by
  unfold ensureConnection
  split
  · rfl
  · unfold connect
    split
    · rfl
    · simp only [List.all_cons, Bool.true_and]
      exact connectRefresh_trace_annsOk env _ s.remote

/-- C10: the nearest-neighbor search always targets the vector field named
exactly embedding: every remote search in the trace of the search operation
carries the anns field embedding, and on a remote collection whose
FLOAT_VECTOR fields are all named otherwise the operation can only return
the empty list. -/
theorem search_targets_embedding_field
    (env : Env) (s : ClientState) (c : String) (vec : List Int) (k : Nat)
    (filt : String) :
    ((searchOp env s c vec k filt).trace.all annsOk = true) ∧
    (listHas (vectorFieldNames s.remote c) "embedding" = false →
      (searchOp env s c vec k filt).result = []) := by
  constructor
  · simp only [searchOp, searchTry, andThen]
    cases hres : (ensureConnection env s).result with
    | error e =>
      simp only [hres]
      exact ensure_trace_annsOk env s
    | ok u =>
      simp only [hres, List.all_append]
      rw [ensure_trace_annsOk env s]
      simp only [Bool.true_and]
      unfold searchBody
      split
      · cases hload : remoteLoadOp env (ensureConnection env s).state.remote c with
        | error e => simp [hload, annsOk]
        | ok r1 =>
          simp only [hload]
          cases hsearch : remoteSearchOp env r1 c "embedding" with
          | error e => simp [hsearch, annsOk]
          | ok hits => simp [hsearch, annsOk]
      · rfl
  · intro hemb
    have hkey : ∀ s1 : ClientState,
        fieldsView s1.remote c = fieldsView s.remote c →
        ∃ e, (searchBody env s1 c k).result = Except.error e := by
      intro s1 hfv
      unfold searchBody
      split
      · split
        next err heq => exact ⟨err, rfl⟩
        next r1 heq =>
          split
          next err heq2 => exact ⟨err, rfl⟩
          next hits heq2 =>
            exfalso
            have hv : vectorFieldNames r1 c = vectorFieldNames s.remote c := by
              have h1 := remoteLoadOp_fieldsView env s1.remote c r1 heq c
              exact vectorFieldNames_congr _ _ c (h1.trans hfv)
            unfold remoteSearchOp at heq2
            split at heq2
            · cases heq2
            · split at heq2
              · cases heq2
              · rw [hv] at heq2
                rw [hemb] at heq2
                simp at heq2
      · exact ⟨"collection does not exist", rfl⟩
    simp only [searchOp, searchTry, andThen]
    cases hres : (ensureConnection env s).result with
    | error e => simp [hres]
    | ok u =>
      simp only [hres]
      obtain ⟨e, he2⟩ := hkey (ensureConnection env s).state
        (ensure_fieldsView env s c)
      simp [he2]

/-- Witness for C10 at a concrete input: a collection whose only vector
field is named vecdata rather than embedding is cached and loaded, yet
search returns the empty list (and its trace only ever targets
embedding). -/
theorem search_targets_embedding_field_witness :
    ((searchOp testEnv
        { connected := true, cache := ["odd"],
          remote := [("odd",
            { fields := [{ name := "vecdata", dtype := DType.FLOAT_VECTOR,
                           dim := some 4 }],
              indexes := [], loaded := true, rows := [] })] }
        "odd" [1] 2 "").trace.all annsOk = true) ∧
      (searchOp testEnv
        { connected := true, cache := ["odd"],
          remote := [("odd",
            { fields := [{ name := "vecdata", dtype := DType.FLOAT_VECTOR,
                           dim := some 4 }],
              indexes := [], loaded := true, rows := [] })] }
        "odd" [1] 2 "").result = [] :=
  ⟨(search_targets_embedding_field testEnv
      { connected := true, cache := ["odd"],
        remote := [("odd",
          { fields := [{ name := "vecdata", dtype := DType.FLOAT_VECTOR,
                         dim := some 4 }],
            indexes := [], loaded := true, rows := [] })] }
      "odd" [1] 2 "").1,
   (search_targets_embedding_field testEnv
      { connected := true, cache := ["odd"],
        remote := [("odd",
          { fields := [{ name := "vecdata", dtype := DType.FLOAT_VECTOR,
                         dim := some 4 }],
            indexes := [], loaded := true, rows := [] })] }
      "odd" [1] 2 "").2 (by decide)⟩

end Mnemosyne
